import Mathlib

/-!
Verification development for a Quran mirror HTTP service (FastAPI + MongoDB).

The service has two collections, `quransurah` (chapter metadata) and
`quranayah` (verse records), populated by a sync routine `sync_quran` that
fetches a chapter list plus three per-chapter verse editions (Arabic text,
English translation, audio) from an upstream API, aligns the three arrays
positionally, and bulk-inserts the merged records.  Read endpoints serve
chapters and verses with optional case-insensitive substring filtering,
ascending sort by verse number, and an optional positive limit.

The embedding below models the MongoDB collections as Lean lists (insert_many
is append, delete_many is emptying, count_documents is length), the upstream
HTTP client as an oracle structure whose fetches return `Option` (none models
a non-200 or transport failure), and text search per the store contract as a
case-insensitive substring match on the Arabic or English text fields.
-/

/-- A record of the `quransurah` collection, as built by `sync_quran`
(fields taken from the upstream chapter-list JSON). -/
structure SurahDoc where
  number : Nat
  name : String
  englishName : String
  englishNameTranslation : Option String
  revelationType : Option String
  numberOfAyahs : Nat
deriving DecidableEq, Repr

/-- A record of the `quranayah` collection, as built by `sync_quran`. -/
structure AyahDoc where
  surah_number : Nat
  ayah_number : Nat
  text_ar : String
  text_en : Option String
  audio_url : Option String
deriving DecidableEq, Repr

/-- One entry of the upstream chapter-list response (`data` array of
`GET /surah`): the fields the sync routine reads via `.get`. -/
structure SurahInfo where
  number : Nat
  name : String
  englishName : String
  englishNameTranslation : Option String
  revelationType : Option String
  numberOfAyahs : Nat
deriving DecidableEq, Repr

/-- One entry of a per-chapter verse-edition response (`data.ayahs` array).
`audio` is the recitation URL carried by the audio edition; the code reads
it with `.get`, so it is optional. -/
structure AyahInfo where
  numberInSurah : Nat
  text : String
  audio : Option String
deriving DecidableEq, Repr

/-- The state of the document store: the two collections used by the
service, each a list of records in insertion order. -/
structure DB where
  surahs : List SurahDoc
  ayahs : List AyahDoc
deriving DecidableEq, Repr

/-- The upstream content API, as an oracle: the single chapter-list fetch
and the three per-chapter edition fetches.  `none` models a failed call
(non-200 status or transport error). -/
structure Upstream where
  surahList : Option (List SurahInfo)
  fetchAr : Nat → Option (List AyahInfo)
  fetchEn : Nat → Option (List AyahInfo)
  fetchAudio : Nat → Option (List AyahInfo)

/-- The sync report returned by `POST /api/sync`. -/
structure SyncResponse where
  surahs_imported : Nat
  ayahs_imported : Nat
  already_present : Bool
deriving DecidableEq, Repr

/-- Failure modes of `sync_quran`, raised as `HTTPException`. -/
inductive SyncError where
  | dbNotConfigured
  | fetchSurahListFailed
deriving DecidableEq, Repr

/-- The HTTP status code attached to each sync failure. -/
def SyncError.httpStatus : SyncError → Nat
  | .dbNotConfigured => 500
  | .fetchSurahListFailed => 502

/-- Failure modes of the read endpoints. -/
inductive QueryError where
  | dbNotConfigured
  | surahNotFound
deriving DecidableEq, Repr

/-- The HTTP status code attached to each read-endpoint failure. -/
def QueryError.httpStatus : QueryError → Nat
  | .dbNotConfigured => 500
  | .surahNotFound => 404

/-- The chapter-metadata record inserted for one upstream chapter entry
(the dict built in the `to_insert_surahs` loop of `sync_quran`). -/
def surahToDoc (s : SurahInfo) : SurahDoc :=
  { number := s.number
    name := s.name
    englishName := s.englishName
    englishNameTranslation := s.englishNameTranslation
    revelationType := s.revelationType
    numberOfAyahs := s.numberOfAyahs }

/-- The positional alignment step of `sync_quran`: one merged record per
index of the Arabic array; translation and audio are looked up at the same
index when within bounds (`en_ayahs[idx] if idx < len(en_ayahs) else ` an
empty dict, likewise for audio). -/
def buildDocs (number : Nat) (ar en au : List AyahInfo) : List AyahDoc :=
  ar.enum.map fun p =>
    { surah_number := number
      ayah_number := p.2.numberInSurah
      text_ar := p.2.text
      text_en := en[p.1]?.map AyahInfo.text
      audio_url := au[p.1]?.bind AyahInfo.audio }

/-- The three per-chapter edition fetches; the chapter is usable only when
all three succeed (`ar_resp.status_code == 200 and ...`). -/
def chapterFetch (u : Upstream) (number : Nat) :
    Option (List AyahInfo × List AyahInfo × List AyahInfo) :=
  match u.fetchAr number, u.fetchEn number, u.fetchAudio number with
  | some ar, some en, some au => some (ar, en, au)
  | _, _, _ => none

/-- The verse records a chapter contributes to the store: its aligned docs
when all three fetches succeed, nothing when any fetch fails (the loop
`continue`s past the chapter). -/
def chapterDocs (u : Upstream) (s : SurahInfo) : List AyahDoc :=
  match chapterFetch u s.number with
  | none => []
  | some (ar, en, au) => buildDocs s.number ar en au

/-- The per-chapter loop of `sync_quran`: sequentially fetch each chapter's
three editions, skip the chapter if any fetch fails, otherwise append the
aligned docs to the ayah collection and add their count to the total. -/
def importAyahs (u : Upstream) : List SurahInfo → Nat × List AyahDoc → Nat × List AyahDoc
  | [], acc => acc
  | s :: rest, acc =>
      match chapterFetch u s.number with
      | none => importAyahs u rest acc
      | some (ar, en, au) =>
          let docs := buildDocs s.number ar en au
          importAyahs u rest (acc.1 + docs.length, acc.2 ++ docs)

/-- `POST /api/sync`: the sync orchestrator.  Mirrors `sync_quran` in
`main.py`: 500 if the store handle is absent; the idempotency guard when
both collections are non-empty and `force` is false; unconditional
delete of both collections when `force`; fatal 502 on a failed chapter-list
fetch; bulk insert of all chapter metadata; then the per-chapter loop. -/
def sync_quran (u : Upstream) (db : Option DB) (force : Bool) :
    Except SyncError (SyncResponse × DB) :=
  match db with
  | none => .error .dbNotConfigured
  | some st =>
    if 0 < st.surahs.length ∧ 0 < st.ayahs.length ∧ force = false then
      .ok ({ surahs_imported := 0, ayahs_imported := 0, already_present := true }, st)
    else
      let st1 : DB := if force then ⟨[], []⟩ else st
      match u.surahList with
      | none => .error .fetchSurahListFailed
      | some surahs =>
        let to_insert_surahs := surahs.map surahToDoc
        let res := importAyahs u surahs (0, st1.ayahs)
        .ok ({ surahs_imported := to_insert_surahs.length
               ayahs_imported := res.1
               already_present := false },
             ⟨st1.surahs ++ to_insert_surahs, res.2⟩)

/-- `GET /api/surah/<number>`: find the first chapter record with the given
number; 404 when none exists, 500 when the store is unconfigured. -/
def get_surah (db : Option DB) (number : Nat) : Except QueryError SurahDoc :=
  match db with
  | none => .error .dbNotConfigured
  | some st =>
    match st.surahs.find? (fun s => s.number == number) with
    | none => .error .surahNotFound
    | some s => .ok s

/-- Boolean check that `pat` starts the list `hay`, character by character. -/
def charsStartWith : List Char → List Char → Bool
  | [], _ => true
  | _ :: _, [] => false
  | p :: ps, c :: cs => p == c && charsStartWith ps cs

/-- Boolean substring search on character lists: does `pat` occur
contiguously inside `hay`? -/
def charsContain (pat : List Char) : List Char → Bool
  | [] => charsStartWith pat []
  | c :: rest => charsStartWith pat (c :: rest) || charsContain pat rest

/-- Case-insensitive substring match, the text-search semantics of the
store contract (the `$regex` with option `i` filter used on the text
fields). -/
def containsCI (text pat : String) : Bool :=
  charsContain pat.toLower.toList text.toLower.toList

/-- Python truthiness of the optional query string `q`: `None` and the
empty string are falsy. -/
def qTruthy (q : Option String) : Bool :=
  match q with
  | none => false
  | some s => !s.isEmpty

/-- The Mongo filter built by `get_surah_ayahs`: match the chapter number
and, when `q` is truthy, additionally require a case-insensitive substring
match on the Arabic or the English text (`$or` of two `$regex` clauses;
a null `text_en` does not match). -/
def ayahMatches (number : Nat) (q : Option String) (a : AyahDoc) : Bool :=
  a.surah_number == number &&
    (if qTruthy q then
      match q with
      | none => false
      | some s =>
          containsCI a.text_ar s ||
            (match a.text_en with
             | some t => containsCI t s
             | none => false)
     else true)

/-- Ascending order on verse records by verse number, the sort key of
`.sort("ayah_number", 1)`. -/
def ayahOrder (a b : AyahDoc) : Prop := a.ayah_number ≤ b.ayah_number

instance : DecidableRel ayahOrder := fun a b => Nat.decLe _ _

instance : IsTotal AyahDoc ayahOrder := ⟨fun a b => Nat.le_total _ _⟩

instance : IsTrans AyahDoc ayahOrder := ⟨fun _ _ _ h h' => Nat.le_trans h h'⟩

/-- The verse query pipeline: filter by chapter (and truthy text filter),
sort ascending by verse number, and truncate to `limit` records only when
`limit` is truthy and positive (`if limit and limit > 0`). -/
def queryAyahs (st : DB) (number : Nat) (q : Option String) (limit : Int) :
    List AyahDoc :=
  let results := List.insertionSort ayahOrder (st.ayahs.filter (ayahMatches number q))
  if 0 < limit then results.take limit.toNat else results

/-- `GET /api/surah/<number>/ayahs`: 500 when the store is unconfigured,
otherwise the query pipeline's result. -/
def get_surah_ayahs (db : Option DB) (number : Nat) (q : Option String)
    (limit : Int) : Except QueryError (List AyahDoc) :=
  match db with
  | none => .error .dbNotConfigured
  | some st => .ok (queryAyahs st number q limit)

/-! ### Sample data used by witness theorems -/

/-- A chapter-list entry for chapter 1. -/
def sampleSurahInfo : SurahInfo :=
  { number := 1, name := "Al-Fatihah", englishName := "The Opening"
    englishNameTranslation := some "The Opening"
    revelationType := some "Meccan", numberOfAyahs := 7 }

/-- A chapter-list entry for chapter 2. -/
def sampleSurahInfo2 : SurahInfo :=
  { number := 2, name := "Al-Baqarah", englishName := "The Cow"
    englishNameTranslation := none
    revelationType := some "Medinan", numberOfAyahs := 286 }

/-- A chapter-list entry for chapter 3. -/
def sampleSurahInfo3 : SurahInfo :=
  { number := 3, name := "Aal-Imran", englishName := "The Family of Imran"
    englishNameTranslation := none
    revelationType := some "Medinan", numberOfAyahs := 200 }

/-- The stored chapter record for `sampleSurahInfo`. -/
def sampleSurahDoc : SurahDoc := surahToDoc sampleSurahInfo

/-- A stored verse record of chapter 1 with translation and audio. -/
def ayahA : AyahDoc :=
  { surah_number := 1, ayah_number := 1, text_ar := "bismillah"
    text_en := some "In the name of God", audio_url := some "http://audio/1.mp3" }

/-- A stored verse record of chapter 1 with no translation and no audio. -/
def ayahB : AyahDoc :=
  { surah_number := 1, ayah_number := 2, text_ar := "alhamdu"
    text_en := none, audio_url := none }

/-- A stored verse record of chapter 2. -/
def ayahC : AyahDoc :=
  { surah_number := 2, ayah_number := 1, text_ar := "alif lam mim"
    text_en := some "Alif Lam Mim", audio_url := none }

/-- A store holding one chapter and one verse (both collections non-empty). -/
def dbOne : DB := ⟨[sampleSurahDoc], [ayahA]⟩

/-- A store with verses of two chapters, deliberately out of verse order. -/
def dbW : DB := ⟨[sampleSurahDoc], [ayahB, ayahA, ayahC]⟩

/-- A store with chapter metadata but zero verse records, as left behind by
a crash between the two bulk inserts. -/
def dbChaptersOnly : DB := ⟨[sampleSurahDoc], []⟩

/-- A synthetic Arabic-edition array of 3 verses. -/
def arListX : List AyahInfo :=
  [⟨1, "ar one", none⟩, ⟨2, "ar two", none⟩, ⟨3, "ar three", none⟩]

/-- A synthetic translation-edition array of 2 verses. -/
def enListX : List AyahInfo :=
  [⟨1, "en one", none⟩, ⟨2, "en two", none⟩]

/-- A synthetic audio-edition array of 3 verses, each carrying a URL. -/
def auListX : List AyahInfo :=
  [⟨1, "", some "http://audio/x1"⟩, ⟨2, "", some "http://audio/x2"⟩,
   ⟨3, "", some "http://audio/x3"⟩]

/-- An upstream whose every call fails. -/
def upstreamNone : Upstream :=
  ⟨none, fun _ => none, fun _ => none, fun _ => none⟩

/-- An upstream whose chapter-list fetch succeeds with an empty list. -/
def upstreamEmptyList : Upstream :=
  ⟨some [], fun _ => none, fun _ => none, fun _ => none⟩

/-- An upstream listing one chapter whose per-chapter fetches all fail. -/
def upstreamMetaOnly : Upstream :=
  ⟨some [sampleSurahInfo], fun _ => none, fun _ => none, fun _ => none⟩

/-- An upstream listing chapters 1, 2, 3 where the translation fetch of
chapter 2 fails and every other fetch succeeds. -/
def upstreamW : Upstream :=
  { surahList := some [sampleSurahInfo, sampleSurahInfo2, sampleSurahInfo3]
    fetchAr := fun _ => some arListX
    fetchEn := fun n => if n == 2 then none else some enListX
    fetchAudio := fun _ => some auListX }

/-! ### Helper lemmas about the alignment step and the import loop -/

theorem buildDocs_length (n : Nat) (ar en au : List AyahInfo) :
    (buildDocs n ar en au).length = ar.length := by
  simp [buildDocs]

theorem buildDocs_getElem? (n : Nat) (ar en au : List AyahInfo) (i : Nat)
    (hi : i < ar.length) :
    (buildDocs n ar en au)[i]? = some
      { surah_number := n
        ayah_number := ar[i].numberInSurah
        text_ar := ar[i].text
        text_en := en[i]?.map AyahInfo.text
        audio_url := au[i]?.bind AyahInfo.audio } := by
  simp [buildDocs, List.getElem?_map, List.getElem?_enum,
    List.getElem?_eq_getElem hi]

theorem mem_buildDocs_surah (n : Nat) (ar en au : List AyahInfo) :
    ∀ d ∈ buildDocs n ar en au, d.surah_number = n := by
  intro d hd
  simp only [buildDocs, List.mem_map] at hd
  obtain ⟨p, _, rfl⟩ := hd
  rfl

theorem chapterDocs_of_fetch (u : Upstream) (s : SurahInfo)
    (ar en au : List AyahInfo) (h : chapterFetch u s.number = some (ar, en, au)) :
    chapterDocs u s = buildDocs s.number ar en au := by
  unfold chapterDocs
  rw [h]

theorem chapterDocs_of_fail (u : Upstream) (s : SurahInfo)
    (h : chapterFetch u s.number = none) : chapterDocs u s = [] := by
  unfold chapterDocs
  rw [h]

theorem mem_chapterDocs_surah (u : Upstream) (s : SurahInfo) :
    ∀ d ∈ chapterDocs u s, d.surah_number = s.number := by
  intro d hd
  unfold chapterDocs at hd
  cases h : chapterFetch u s.number with
  | none => rw [h] at hd; simp at hd
  | some trip =>
      obtain ⟨ar, en, au⟩ := trip
      rw [h] at hd
      exact mem_buildDocs_surah _ _ _ _ d hd

theorem importAyahs_eq (u : Upstream) :
    ∀ (surahs : List SurahInfo) (t : Nat) (l : List AyahDoc),
      importAyahs u surahs (t, l) =
        (t + (surahs.map fun s => (chapterDocs u s).length).sum,
         l ++ surahs.flatMap (chapterDocs u)) := by
  intro surahs
  induction surahs with
  | nil => intro t l; simp [importAyahs]
  | cons s rest ih =>
      intro t l
      cases h : chapterFetch u s.number with
      | none =>
          simp only [importAyahs, h]
          rw [ih t l]
          simp [chapterDocs_of_fail u s h]
      | some trip =>
          obtain ⟨ar, en, au⟩ := trip
          simp only [importAyahs, h]
          rw [ih]
          simp [chapterDocs_of_fetch u s ar en au h, Nat.add_assoc]

theorem sync_ok_eq (u : Upstream) (st : DB) (force : Bool)
    (hguard : ¬(0 < st.surahs.length ∧ 0 < st.ayahs.length ∧ force = false))
    (l : List SurahInfo) (hl : u.surahList = some l) :
    sync_quran u (some st) force =
      .ok ({ surahs_imported := l.length
             ayahs_imported := (l.map fun s => (chapterDocs u s).length).sum
             already_present := false },
           ⟨(if force then [] else st.surahs) ++ l.map surahToDoc,
            (if force then [] else st.ayahs) ++ l.flatMap (chapterDocs u)⟩) := by
  simp only [sync_quran, hl, importAyahs_eq]
  split
  · next hcond => exact absurd hcond hguard
  · cases force <;> simp

/-! ### Claim theorems -/

/-- C1: a non-force sync against a store where both collections already hold
at least one record returns immediately with `already_present = true` and
zero counts, and leaves both collections unchanged. -/
theorem sync_already_present_noop (u : Upstream) (st : DB)
    (hs : 0 < st.surahs.length) (ha : 0 < st.ayahs.length) :
    sync_quran u (some st) false =
      .ok ({ surahs_imported := 0, ayahs_imported := 0, already_present := true }, st) := by
  simp [sync_quran, hs, ha]

/-- Witness for C1 at a store holding one chapter and one verse. -/
theorem sync_already_present_noop_witness :
    sync_quran upstreamNone (some dbOne) false =
      .ok ({ surahs_imported := 0, ayahs_imported := 0, already_present := true }, dbOne) :=
  sync_already_present_noop upstreamNone dbOne (by decide) (by decide)

/-- C2: the alignment step yields one record per index of the Arabic array;
the record at index `i` carries the Arabic verse number and text at `i` and
the translation text / audio URL looked up at the same index when within
bounds; for arrays of lengths 3, 2 and 3 (audio entries all carrying URLs)
the output has 3 records, index 1 has translation and audio set, index 2
has translation absent and audio set. -/
theorem alignment_positional_join (number : Nat) (ar en au : List AyahInfo) :
    (buildDocs number ar en au).length = ar.length ∧
    (∀ i (hi : i < ar.length),
      (buildDocs number ar en au)[i]? = some
        { surah_number := number
          ayah_number := ar[i].numberInSurah
          text_ar := ar[i].text
          text_en := en[i]?.map AyahInfo.text
          audio_url := au[i]?.bind AyahInfo.audio }) ∧
    (ar.length = 3 → en.length = 2 → au.length = 3 →
      (∀ a ∈ au, a.audio.isSome = true) →
      (buildDocs number ar en au).length = 3 ∧
      (∃ d, (buildDocs number ar en au)[1]? = some d ∧
        d.text_en.isSome = true ∧ d.audio_url.isSome = true) ∧
      (∃ d, (buildDocs number ar en au)[2]? = some d ∧
        d.text_en = none ∧ d.audio_url.isSome = true)) := by
  refine ⟨buildDocs_length number ar en au, buildDocs_getElem? number ar en au, ?_⟩
  intro har hen hau hsome
  refine ⟨by rw [buildDocs_length, har], ?_, ?_⟩
  · refine ⟨_, buildDocs_getElem? number ar en au 1 (by omega), ?_, ?_⟩
    · simp [List.getElem?_eq_getElem (show 1 < en.length by omega)]
    · rw [List.getElem?_eq_getElem (show 1 < au.length by omega)]
      simp only [Option.some_bind]
      exact hsome _ (List.getElem_mem _)
  · refine ⟨_, buildDocs_getElem? number ar en au 2 (by omega), ?_, ?_⟩
    · simp [List.getElem?_eq_none (show en.length ≤ 2 by omega)]
    · rw [List.getElem?_eq_getElem (show 2 < au.length by omega)]
      simp only [Option.some_bind]
      exact hsome _ (List.getElem_mem _)

/-- Witness for C2 on the synthetic 3/2/3 verse arrays. -/
theorem alignment_positional_join_witness :
    (buildDocs 1 arListX enListX auListX).length = 3 ∧
    (buildDocs 1 arListX enListX auListX)[1]? = some
      { surah_number := 1, ayah_number := 2, text_ar := "ar two"
        text_en := some "en two", audio_url := some "http://audio/x2" } := by
  have h := alignment_positional_join 1 arListX enListX auListX
  refine ⟨(h.2.2 rfl rfl rfl (by decide)).1, ?_⟩
  simpa [arListX, enListX, auListX] using h.2.1 1 (by decide)

/-- C5: a force sync deletes everything up front, so it computes exactly
what a fresh non-force sync on an empty store computes — same report, same
final store, no stale records. -/
theorem force_sync_equals_fresh_import (u : Upstream) (st : DB) :
    sync_quran u (some st) true = sync_quran u (some ⟨[], []⟩) false := by
  cases h : u.surahList <;> simp [sync_quran, h]

/-- C6: a failed chapter-list fetch is fatal (502) whenever the sync gets
past the idempotency guard, and it is the only fetch whose failure makes
the sync fail: with the chapter list in hand the sync always returns ok. -/
theorem surah_list_fetch_only_fatal (u : Upstream) (st : DB) (force : Bool) :
    (u.surahList = none →
      (force = true ∨ st.surahs.length = 0 ∨ st.ayahs.length = 0) →
      sync_quran u (some st) force = .error .fetchSurahListFailed ∧
        SyncError.httpStatus .fetchSurahListFailed = 502) ∧
    (∀ l, u.surahList = some l → (sync_quran u (some st) force).isOk = true) := by
  constructor
  · intro hnone hcase
    have hguard : ¬(0 < st.surahs.length ∧ 0 < st.ayahs.length ∧ force = false) := by
      rcases hcase with h | h | h
      · rintro ⟨_, _, hf⟩; rw [h] at hf; cases hf
      · rintro ⟨h1, _, _⟩; omega
      · rintro ⟨_, h2, _⟩; omega
    refine ⟨?_, rfl⟩
    simp only [sync_quran, hnone]
    split
    · next hcond => exact absurd hcond hguard
    · rfl
  · intro l hl
    simp only [sync_quran, hl]
    split
    · rfl
    · rfl

/-- Witness for C6: a force sync against a dead upstream fails with 502;
a sync against an upstream with an empty chapter list returns ok. -/
theorem surah_list_fetch_only_fatal_witness :
    (sync_quran upstreamNone (some dbOne) true = .error .fetchSurahListFailed ∧
      SyncError.httpStatus .fetchSurahListFailed = 502) ∧
    (sync_quran upstreamEmptyList (some dbOne) false).isOk = true :=
  ⟨(surah_list_fetch_only_fatal upstreamNone dbOne true).1 rfl (Or.inl rfl),
   (surah_list_fetch_only_fatal upstreamEmptyList dbOne false).2 [] rfl⟩

/-- C8: looking up a chapter by number fails with 404 when no record with
that number exists, and returns a stored record with that number when one
exists. -/
theorem get_surah_found_or_404 (st : DB) (number : Nat) :
    ((∀ s ∈ st.surahs, s.number ≠ number) →
      get_surah (some st) number = .error .surahNotFound ∧
        QueryError.httpStatus .surahNotFound = 404) ∧
    ((∃ s ∈ st.surahs, s.number = number) →
      ∃ s, get_surah (some st) number = .ok s ∧ s.number = number ∧ s ∈ st.surahs) := by
  constructor
  · intro h
    have hnone : st.surahs.find? (fun s => s.number == number) = none := by
      rw [List.find?_eq_none]
      intro s hs
      simpa using h s hs
    exact ⟨by simp [get_surah, hnone], rfl⟩
  · rintro ⟨s, hs, hn⟩
    have hsome : (st.surahs.find? (fun s => s.number == number)).isSome := by
      rw [List.find?_isSome]
      exact ⟨s, hs, by simpa using hn⟩
    obtain ⟨t, ht⟩ := Option.isSome_iff_exists.mp hsome
    refine ⟨t, ?_, ?_, ?_⟩
    · simp [get_surah, ht]
    · simpa using List.find?_some ht
    · exact List.mem_of_find?_eq_some ht

/-- Witness for C8: chapter 999 is absent from the sample store (404),
chapter 1 is present and returned. -/
theorem get_surah_found_or_404_witness :
    (get_surah (some dbOne) 999 = .error .surahNotFound ∧
      QueryError.httpStatus .surahNotFound = 404) ∧
    get_surah (some dbOne) 1 = .ok sampleSurahDoc := by
  refine ⟨(get_surah_found_or_404 dbOne 999).1 (by decide), ?_⟩
  obtain ⟨s, hs, hn, hmem⟩ :=
    (get_surah_found_or_404 dbOne 1).2 ⟨sampleSurahDoc, by decide, by decide⟩
  have heq : s = sampleSurahDoc := by simpa [dbOne] using hmem
  rw [← heq]
  exact hs

/-- C9: with the verse collection empty (for example after a crash between
the two bulk inserts) a plain non-force sync skips neither the guard nor
deletes anything: it reimports in full and appends a second copy of every
fetched chapter-metadata record after the existing ones. -/
theorem nonforce_sync_duplicates_metadata (u : Upstream) (st : DB)
    (l : List SurahInfo) (hl : u.surahList = some l)
    (hsur : 0 < st.surahs.length) (hay : st.ayahs = []) :
    sync_quran u (some st) false =
      .ok ({ surahs_imported := l.length
             ayahs_imported := (l.map fun s => (chapterDocs u s).length).sum
             already_present := false },
           ⟨st.surahs ++ l.map surahToDoc, l.flatMap (chapterDocs u)⟩) := by
  have hguard : ¬(0 < st.surahs.length ∧ 0 < st.ayahs.length ∧ false = false) := by
    rintro ⟨_, h2, _⟩
    rw [hay] at h2
    simp at h2
  simpa [hay] using sync_ok_eq u st false hguard l hl

/-- Witness for C9: a chapters-only store plus a one-chapter upstream ends
with two copies of the same chapter record. -/
theorem nonforce_sync_duplicates_metadata_witness :
    sync_quran upstreamMetaOnly (some dbChaptersOnly) false =
      .ok ({ surahs_imported := 1, ayahs_imported := 0, already_present := false },
           ⟨[sampleSurahDoc, sampleSurahDoc], []⟩) := by
  have h := nonforce_sync_duplicates_metadata upstreamMetaOnly dbChaptersOnly
    [sampleSurahInfo] rfl (by decide) rfl
  simpa [dbChaptersOnly, sampleSurahDoc, chapterDocs, chapterFetch, upstreamMetaOnly] using h

/-- C10: an empty-string text filter is treated exactly like an absent one:
the filter branch is not taken and the match condition degenerates to the
chapter-number check. -/
theorem empty_filter_like_absent (db : Option DB) (number : Nat) (limit : Int) :
    get_surah_ayahs db number (some "") limit = get_surah_ayahs db number none limit ∧
    ∀ a : AyahDoc, ayahMatches number (some "") a = (a.surah_number == number) := by
  have hfun : ayahMatches number (some "") = ayahMatches number none := by
    funext a
    simp [ayahMatches, qTruthy, show "".isEmpty = true from rfl]
  constructor
  · cases db with
    | none => rfl
    | some st => simp [get_surah_ayahs, queryAyahs, hfun]
  · intro a
    rw [hfun]
    simp [ayahMatches, qTruthy]

/-! ### Counting verse records per chapter in the import output -/

theorem countP_chapterDocs_flatMap_zero (u : Upstream) (n : Nat) :
    ∀ (rest : List SurahInfo), n ∉ rest.map SurahInfo.number →
      ((rest.flatMap (chapterDocs u)).countP fun a => a.surah_number == n) = 0 := by
  intro rest
  induction rest with
  | nil => intro _; simp
  | cons s tail ih =>
      intro hn
      have hsn : s.number ≠ n := by
        intro he
        apply hn
        rw [List.map_cons, ← he]
        exact List.mem_cons_self _ _
      have h2 : n ∉ tail.map SurahInfo.number := by
        intro hmem
        exact hn (by rw [List.map_cons]; exact List.mem_cons_of_mem _ hmem)
      have h1 : ((chapterDocs u s).countP fun a => a.surah_number == n) = 0 := by
        rw [List.countP_eq_zero]
        intro d hd
        rw [mem_chapterDocs_surah u s d hd]
        simp [hsn]
      simp only [List.flatMap_cons, List.countP_append, h1, ih h2]

theorem countP_chapterDocs_flatMap (u : Upstream) (n : Nat) :
    ∀ (l : List SurahInfo), (l.map SurahInfo.number).Nodup →
      ∀ s ∈ l, s.number = n →
        ((l.flatMap (chapterDocs u)).countP fun a => a.surah_number == n) =
          (chapterDocs u s).length := by
  intro l
  induction l with
  | nil => intro _ s hs; exact absurd hs (List.not_mem_nil s)
  | cons a tail ih =>
      intro hnd s hs hn
      rw [List.map_cons, List.nodup_cons] at hnd
      obtain ⟨hna, hndt⟩ := hnd
      simp only [List.flatMap_cons, List.countP_append]
      rcases List.mem_cons.mp hs with rfl | hmem
      · have hall : ((chapterDocs u s).countP fun d => d.surah_number == n) =
            (chapterDocs u s).length := by
          rw [List.countP_eq_length]
          intro d hd
          rw [mem_chapterDocs_surah u s d hd, hn]
          simp
        have hzero : ((tail.flatMap (chapterDocs u)).countP fun d => d.surah_number == n) = 0 := by
          apply countP_chapterDocs_flatMap_zero
          rw [← hn]
          exact hna
        rw [hall, hzero]
        omega
      · have hz : ((chapterDocs u a).countP fun d => d.surah_number == n) = 0 := by
          rw [List.countP_eq_zero]
          intro d hd
          rw [mem_chapterDocs_surah u a d hd]
          have hne : a.number ≠ n := by
            intro he
            apply hna
            rw [he, ← hn]
            exact List.mem_map.mpr ⟨s, hmem, rfl⟩
          simp [hne]
        rw [hz, ih hndt s hmem hn]
        simp

/-- C3: on a store with an empty verse collection, a successful sync stores,
for each chapter whose three fetches succeeded, exactly as many verse
records with that chapter number as the Arabic edition returned; indices
beyond the translation (resp. audio) array are still inserted, with the
corresponding field absent. -/
theorem synced_chapter_ayah_count (u : Upstream) (cs : List SurahDoc)
    (l : List SurahInfo) (hl : u.surahList = some l)
    (hnd : (l.map SurahInfo.number).Nodup)
    (s : SurahInfo) (hs : s ∈ l)
    (ar en au : List AyahInfo)
    (hfetch : chapterFetch u s.number = some (ar, en, au)) :
    sync_quran u (some ⟨cs, []⟩) false =
      .ok ({ surahs_imported := l.length
             ayahs_imported := (l.map fun t => (chapterDocs u t).length).sum
             already_present := false },
           ⟨cs ++ l.map surahToDoc, l.flatMap (chapterDocs u)⟩) ∧
    ((l.flatMap (chapterDocs u)).countP fun a => a.surah_number == s.number) = ar.length ∧
    (∀ i, i < ar.length → en.length ≤ i →
      ∃ d, (buildDocs s.number ar en au)[i]? = some d ∧
        d ∈ l.flatMap (chapterDocs u) ∧ d.text_en = none) ∧
    (∀ i, i < ar.length → au.length ≤ i →
      ∃ d, (buildDocs s.number ar en au)[i]? = some d ∧
        d ∈ l.flatMap (chapterDocs u) ∧ d.audio_url = none) := by
  have hguard : ¬(0 < (⟨cs, []⟩ : DB).surahs.length ∧
      0 < (⟨cs, []⟩ : DB).ayahs.length ∧ false = false) := by
    rintro ⟨_, h2, _⟩
    simp at h2
  refine ⟨by simpa using sync_ok_eq u ⟨cs, []⟩ false hguard l hl, ?_, ?_, ?_⟩
  · rw [countP_chapterDocs_flatMap u s.number l hnd s hs rfl,
      chapterDocs_of_fetch u s ar en au hfetch, buildDocs_length]
  · intro i hi hen
    refine ⟨_, buildDocs_getElem? s.number ar en au i hi, ?_, ?_⟩
    · refine List.mem_flatMap_of_mem hs ?_
      rw [chapterDocs_of_fetch u s ar en au hfetch]
      exact List.getElem?_mem (buildDocs_getElem? s.number ar en au i hi)
    · simp [List.getElem?_eq_none hen]
  · intro i hi hau
    refine ⟨_, buildDocs_getElem? s.number ar en au i hi, ?_, ?_⟩
    · refine List.mem_flatMap_of_mem hs ?_
      rw [chapterDocs_of_fetch u s ar en au hfetch]
      exact List.getElem?_mem (buildDocs_getElem? s.number ar en au i hi)
    · simp [List.getElem?_eq_none hau]

/-- Witness for C3: after syncing three chapters through `upstreamW`,
chapter 1 holds exactly 3 verse records, the length of its Arabic array. -/
theorem synced_chapter_ayah_count_witness :
    (([sampleSurahInfo, sampleSurahInfo2, sampleSurahInfo3].flatMap
        (chapterDocs upstreamW)).countP fun a => a.surah_number == 1) = 3 := by
  have h := synced_chapter_ayah_count upstreamW []
    [sampleSurahInfo, sampleSurahInfo2, sampleSurahInfo3] rfl (by decide)
    sampleSurahInfo (by decide) arListX enListX auListX rfl
  simpa [sampleSurahInfo, arListX] using h.2.1

/-- C4: when one chapter's edition fetch fails during sync, that chapter is
skipped: its metadata record is still inserted, it contributes zero verse
records, and the reported verse count is the sum over the other chapters. -/
theorem failed_chapter_skipped (u : Upstream) (cs : List SurahDoc)
    (pre post : List SurahInfo) (bad : SurahInfo)
    (hl : u.surahList = some (pre ++ bad :: post))
    (hfail : u.fetchAr bad.number = none ∨ u.fetchEn bad.number = none ∨
      u.fetchAudio bad.number = none)
    (hnd : ((pre ++ bad :: post).map SurahInfo.number).Nodup)
    (hrest : ∀ s ∈ pre ++ post, (chapterFetch u s.number).isSome = true) :
    sync_quran u (some ⟨cs, []⟩) false =
      .ok ({ surahs_imported := (pre ++ bad :: post).length
             ayahs_imported := ((pre ++ post).map fun t => (chapterDocs u t).length).sum
             already_present := false },
           ⟨cs ++ (pre ++ bad :: post).map surahToDoc,
            (pre ++ bad :: post).flatMap (chapterDocs u)⟩) ∧
    surahToDoc bad ∈ cs ++ (pre ++ bad :: post).map surahToDoc ∧
    (((pre ++ bad :: post).flatMap (chapterDocs u)).countP
      fun a => a.surah_number == bad.number) = 0 := by
  have hbadfetch : chapterFetch u bad.number = none := by
    unfold chapterFetch
    rcases har : u.fetchAr bad.number with _ | ar <;>
      rcases hen : u.fetchEn bad.number with _ | en <;>
        rcases hau : u.fetchAudio bad.number with _ | au <;>
          simp_all
  have hbd : chapterDocs u bad = [] := chapterDocs_of_fail u bad hbadfetch
  have hguard : ¬(0 < (⟨cs, []⟩ : DB).surahs.length ∧
      0 < (⟨cs, []⟩ : DB).ayahs.length ∧ false = false) := by
    rintro ⟨_, h2, _⟩
    simp at h2
  refine ⟨?_, ?_, ?_⟩
  · have h := sync_ok_eq u ⟨cs, []⟩ false hguard _ hl
    simpa [List.map_append, List.sum_append, hbd] using h
  · exact List.mem_append_right _ (List.mem_map.mpr ⟨bad, by simp, rfl⟩)
  · rw [countP_chapterDocs_flatMap u bad.number _ hnd bad (by simp) rfl, hbd]
    rfl

/-- Witness for C4: with chapter 2's translation fetch failing, its metadata
record is inserted and it contributes zero verse records. -/
theorem failed_chapter_skipped_witness :
    surahToDoc sampleSurahInfo2 ∈
      ([] : List SurahDoc) ++
        ([sampleSurahInfo] ++ sampleSurahInfo2 :: [sampleSurahInfo3]).map surahToDoc ∧
    ((([sampleSurahInfo] ++ sampleSurahInfo2 :: [sampleSurahInfo3]).flatMap
        (chapterDocs upstreamW)).countP
      fun a => a.surah_number == sampleSurahInfo2.number) = 0 := by
  have h := failed_chapter_skipped upstreamW [] [sampleSurahInfo] [sampleSurahInfo3]
    sampleSurahInfo2 rfl (Or.inr (Or.inl rfl)) (by decide) (by decide)
  exact ⟨h.2.1, h.2.2⟩

/-- C7: the verse listing returns only verses of the requested chapter that
pass the text filter (case-insensitive substring on the Arabic or English
text when a non-empty filter is supplied), sorted ascending by verse
number; a positive limit truncates to the first `limit` records and a
non-positive limit returns every matching verse. -/
theorem list_ayahs_filter_sort_limit (st : DB) (number : Nat) (q : Option String)
    (limit : Int) :
    get_surah_ayahs (some st) number q limit = .ok (queryAyahs st number q limit) ∧
    (∀ a ∈ queryAyahs st number q limit,
      a.surah_number = number ∧
      ∀ s, q = some s → s.isEmpty = false →
        (containsCI a.text_ar s = true ∨
          ∃ t, a.text_en = some t ∧ containsCI t s = true)) ∧
    ((queryAyahs st number q limit).map AyahDoc.ayah_number).Sorted (· ≤ ·) ∧
    (0 < limit →
      queryAyahs st number q limit =
        (List.insertionSort ayahOrder (st.ayahs.filter (ayahMatches number q))).take
          limit.toNat) ∧
    (limit ≤ 0 →
      ∀ a ∈ st.ayahs, ayahMatches number q a = true →
        a ∈ queryAyahs st number q limit) := by
  refine ⟨rfl, ?_, ?_, ?_, ?_⟩
  · intro a ha
    have hmem : a ∈ List.insertionSort ayahOrder (st.ayahs.filter (ayahMatches number q)) := by
      unfold queryAyahs at ha
      by_cases h : 0 < limit
      · rw [if_pos h] at ha
        exact List.take_subset _ _ ha
      · rw [if_neg h] at ha
        exact ha
    have hfil : a ∈ st.ayahs.filter (ayahMatches number q) :=
      (List.perm_insertionSort ayahOrder _).mem_iff.mp hmem
    have hmatch : ayahMatches number q a = true := (List.mem_filter.mp hfil).2
    unfold ayahMatches at hmatch
    rw [Bool.and_eq_true] at hmatch
    obtain ⟨h1, h2⟩ := hmatch
    refine ⟨by simpa using h1, ?_⟩
    intro s hq hne
    subst hq
    have hqt : qTruthy (some s) = true := by simp [qTruthy, hne]
    rw [hqt] at h2
    simp only [if_true] at h2
    rw [Bool.or_eq_true] at h2
    rcases h2 with h | h
    · exact Or.inl h
    · right
      cases hte : a.text_en with
      | none => rw [hte] at h; cases h
      | some t => rw [hte] at h; exact ⟨t, rfl, h⟩
  · have hs : List.Sorted ayahOrder
        (List.insertionSort ayahOrder (st.ayahs.filter (ayahMatches number q))) :=
      List.sorted_insertionSort ayahOrder _
    have hs2 : List.Sorted ayahOrder (queryAyahs st number q limit) := by
      unfold queryAyahs
      by_cases h : 0 < limit
      · rw [if_pos h]
        exact List.Pairwise.sublist (List.take_sublist _ _) hs
      · rw [if_neg h]
        exact hs
    exact hs2.map _ (fun a b h => h)
  · intro h
    unfold queryAyahs
    rw [if_pos h]
  · intro h a ha hm
    unfold queryAyahs
    rw [if_neg (by omega : ¬ 0 < limit)]
    exact (List.perm_insertionSort ayahOrder _).mem_iff.mpr (List.mem_filter.mpr ⟨ha, hm⟩)

/-- Witness for C7: with no filter and no limit, a stored chapter-1 verse
appears in the chapter-1 listing, and its chapter number is 1. -/
theorem list_ayahs_filter_sort_limit_witness :
    ayahA ∈ queryAyahs dbW 1 none 0 ∧ ayahA.surah_number = 1 := by
  have h := list_ayahs_filter_sort_limit dbW 1 none 0
  have hmem : ayahA ∈ queryAyahs dbW 1 none 0 :=
    h.2.2.2.2 (by decide) ayahA (by decide) (by decide)
  exact ⟨hmem, (h.2.1 ayahA hmem).1⟩
